import Mathlib

/-
Verification of the Seat/Cupra connector extension
(carconnectivity-connector-seatcupra): a shallow embedding of
src/carconnectivity_connectors/seatcupra/{charging,climatization,vehicle}.py.

Host-framework collaborators (the generic carconnectivity base classes:
Charging, Climatization, ChargingConnector, the attribute cells, the
Commands container) are external to this repository; the parts of them the
connector touches are modelled minimally, each marked in its doc comment.
Attribute bookkeeping that the claims never mention (name, parent, tags)
is not modelled: an attribute cell is its optional value, plus the numeric
constraints for level attributes.
-/

namespace SeatCupra

/-- Generic charging states of the host framework (modelled: the members the
connector references as mapping targets and defaults). -/
inductive ChargingState where
  | OFF
  | READY_FOR_CHARGING
  | CHARGING
  | CONSERVATION
  | ERROR
  | UNSUPPORTED
  | DISCHARGING
  | UNKNOWN
deriving DecidableEq, Fintype

/-- Generic charging type of the host framework (modelled: the connector only
references UNKNOWN; AC and DC stand for its observed members). -/
inductive ChargingType where
  | AC
  | DC
  | UNKNOWN
deriving DecidableEq, Fintype

/-- Connection state of the host ChargingConnector (modelled). -/
inductive ConnectorConnectionState where
  | CONNECTED
  | DISCONNECTED
  | UNKNOWN
deriving DecidableEq, Fintype

/-- External power state of the host ChargingConnector (modelled). -/
inductive ConnectorExternalPower where
  | AVAILABLE
  | UNAVAILABLE
  | UNKNOWN
deriving DecidableEq, Fintype

/-- Lock state of the host ChargingConnector (modelled). -/
inductive ConnectorLockState where
  | LOCKED
  | UNLOCKED
  | UNKNOWN
deriving DecidableEq, Fintype

/-- Generic climatization states of the host framework (modelled). -/
inductive ClimatizationState where
  | OFF
  | HEATING
  | COOLING
  | VENTILATION
  | UNKNOWN
deriving DecidableEq, Fintype

/-- Vendor charging states, from class SeatCupraChargingState in charging.py
(eleven members, in source declaration order). -/
inductive SeatCupraChargingState where
  | OFF
  | READY_FOR_CHARGING
  | NOT_READY_FOR_CHARGING
  | CONSERVATION
  | CHARGE_PURPOSE_REACHED_NOT_CONSERVATION_CHARGING
  | CHARGE_PURPOSE_REACHED_CONSERVATION
  | CHARGING
  | ERROR
  | UNSUPPORTED
  | DISCHARGING
  | UNKNOWN
deriving DecidableEq, Fintype

/-- Raw string value of each SeatCupraChargingState member, from charging.py. -/
def SeatCupraChargingState.raw : SeatCupraChargingState → String
  | .OFF => "off"
  | .READY_FOR_CHARGING => "readyForCharging"
  | .NOT_READY_FOR_CHARGING => "notReadyForCharging"
  | .CONSERVATION => "conservation"
  | .CHARGE_PURPOSE_REACHED_NOT_CONSERVATION_CHARGING => "chargePurposeReachedAndNotConservationCharging"
  | .CHARGE_PURPOSE_REACHED_CONSERVATION => "chargePurposeReachedAndConservation"
  | .CHARGING => "charging"
  | .ERROR => "error"
  | .UNSUPPORTED => "unsupported"
  | .DISCHARGING => "discharging"
  | .UNKNOWN => "unknown charging state"

/-- The members of SeatCupraChargingState in declaration order. -/
def SeatCupraChargingState.members : List SeatCupraChargingState :=
  [.OFF, .READY_FOR_CHARGING, .NOT_READY_FOR_CHARGING, .CONSERVATION,
   .CHARGE_PURPOSE_REACHED_NOT_CONSERVATION_CHARGING,
   .CHARGE_PURPOSE_REACHED_CONSERVATION, .CHARGING, .ERROR, .UNSUPPORTED,
   .DISCHARGING, .UNKNOWN]

/-- Vendor charge modes, from class SeatCupraChargeMode in charging.py. -/
inductive SeatCupraChargeMode where
  | MANUAL
  | INVALID
  | OFF
  | TIMER
  | ONLY_OWN_CURRENT
  | PREFERRED_CHARGING_TIMES
  | TIMER_CHARGING_WITH_CLIMATISATION
  | HOME_STORAGE_CHARGING
  | IMMEDIATE_DISCHARGING
  | UNKNOWN
deriving DecidableEq, Fintype

/-- Raw string value of each SeatCupraChargeMode member, from charging.py. -/
def SeatCupraChargeMode.raw : SeatCupraChargeMode → String
  | .MANUAL => "manual"
  | .INVALID => "invalid"
  | .OFF => "off"
  | .TIMER => "timer"
  | .ONLY_OWN_CURRENT => "onlyOwnCurrent"
  | .PREFERRED_CHARGING_TIMES => "preferredChargingTimes"
  | .TIMER_CHARGING_WITH_CLIMATISATION => "timerChargingWithClimatisation"
  | .HOME_STORAGE_CHARGING => "homeStorageCharging"
  | .IMMEDIATE_DISCHARGING => "immediateDischarging"
  | .UNKNOWN => "unknown charge mode"

/-- The members of SeatCupraChargeMode in declaration order. -/
def SeatCupraChargeMode.members : List SeatCupraChargeMode :=
  [.MANUAL, .INVALID, .OFF, .TIMER, .ONLY_OWN_CURRENT,
   .PREFERRED_CHARGING_TIMES, .TIMER_CHARGING_WITH_CLIMATISATION,
   .HOME_STORAGE_CHARGING, .IMMEDIATE_DISCHARGING, .UNKNOWN]

/-- The classmethod SeatCupraChargingState._missing_ from charging.py: logs the
diagnostic line and returns None. The pair is (returned member, logged line). -/
def SeatCupraChargingState.missingHook (value : String) :
    Option SeatCupraChargingState × String :=
  (none, "Unknown SeatCupraChargingState value: " ++ value)

/-- The classmethod SeatCupraChargeMode._missing_ from charging.py: logs the
diagnostic line and returns None. -/
def SeatCupraChargeMode.missingHook (value : String) :
    Option SeatCupraChargeMode × String :=
  (none, "Unknown SeatCupraChargeMode value: " ++ value)

/-- Value lookup over the members of SeatCupraChargingState, the first stage of
the Python Enum constructor. -/
def SeatCupraChargingState.ofRaw (s : String) : Option SeatCupraChargingState :=
  SeatCupraChargingState.members.find? (fun m => m.raw = s)

/-- Value lookup over the members of SeatCupraChargeMode. -/
def SeatCupraChargeMode.ofRaw (s : String) : Option SeatCupraChargeMode :=
  SeatCupraChargeMode.members.find? (fun m => m.raw = s)

/-- Python Enum constructor semantics for SeatCupraChargingState(s): look the
value up among the members; on a miss call the _missing_ hook; when the hook
returns None the enum machinery raises ValueError, modelled as Except.error. -/
def SeatCupraChargingState.call (s : String) :
    Except String SeatCupraChargingState :=
  match SeatCupraChargingState.ofRaw s with
  | some m => .ok m
  | none =>
    match (SeatCupraChargingState.missingHook s).1 with
    | some m => .ok m
    | none => .error ("ValueError: " ++ s ++ " is not a valid SeatCupraChargingState")

/-- Python Enum constructor semantics for SeatCupraChargeMode(s). -/
def SeatCupraChargeMode.call (s : String) : Except String SeatCupraChargeMode :=
  match SeatCupraChargeMode.ofRaw s with
  | some m => .ok m
  | none =>
    match (SeatCupraChargeMode.missingHook s).1 with
    | some m => .ok m
    | none => .error ("ValueError: " ++ s ++ " is not a valid SeatCupraChargeMode")

/-- The dict mapping_seatcupra_charging_state from charging.py, entry for
entry in source order. -/
def mapping_seatcupra_charging_state :
    List (SeatCupraChargingState × ChargingState) :=
  [(.OFF, .OFF),
   (.NOT_READY_FOR_CHARGING, .OFF),
   (.READY_FOR_CHARGING, .READY_FOR_CHARGING),
   (.CONSERVATION, .CONSERVATION),
   (.CHARGE_PURPOSE_REACHED_NOT_CONSERVATION_CHARGING, .READY_FOR_CHARGING),
   (.CHARGE_PURPOSE_REACHED_CONSERVATION, .CONSERVATION),
   (.CHARGING, .CHARGING),
   (.ERROR, .ERROR),
   (.UNSUPPORTED, .UNSUPPORTED),
   (.DISCHARGING, .DISCHARGING),
   (.UNKNOWN, .UNKNOWN)]

/-- Dict lookup mapping_seatcupra_charging_state[s]. -/
def mappingLookup (s : SeatCupraChargingState) : Option ChargingState :=
  (mapping_seatcupra_charging_state.find? (fun p => p.1 = s)).map (fun p => p.2)

/-- An EnumAttribute cell of the host framework, reduced to its optional
value; it is unset (value None) until the first _set_value. -/
structure EnumAttr (α : Type) where
  value : Option α
deriving DecidableEq

/-- A BooleanAttribute cell of the host framework, reduced to its value. -/
structure BoolAttr where
  value : Option Bool
deriving DecidableEq

/-- A StringAttribute cell of the host framework, reduced to its value. -/
structure StrAttr where
  value : Option String
deriving DecidableEq

/-- A LevelAttribute cell of the host framework: an optional numeric value
plus the minimum/maximum/precision constraint fields the connector assigns.
Floats are modelled as rationals (0.0, 100.0 and 5.0 are exact). -/
structure LevelAttribute where
  value : Option ℚ
  minimum : Option ℚ
  maximum : Option ℚ
  precision : Option ℚ
deriving DecidableEq

/-- Value below the minimum bound, when a minimum is set. -/
def LevelAttribute.belowMin (bound : Option ℚ) (v : ℚ) : Bool :=
  match bound with
  | none => false
  | some m => decide (v < m)

/-- Value above the maximum bound, when a maximum is set. -/
def LevelAttribute.aboveMax (bound : Option ℚ) (v : ℚ) : Bool :=
  match bound with
  | none => false
  | some m => decide (m < v)

/-- Value not an integer multiple of the precision step, when one is set. -/
def LevelAttribute.offStep (step : Option ℚ) (v : ℚ) : Bool :=
  match step with
  | none => false
  | some p => if p = 0 then false else decide ((v / p).den ≠ 1)

/-- Modelled from the spec: the host LevelAttribute assignment enforces the
minimum/maximum/precision constraints, rejecting a value outside the bounds
or off the precision step rather than storing it (spec sections 3 and 8);
the host attribute-container types are outside this repository. -/
def LevelAttribute.setValue (a : LevelAttribute) (v : ℚ) :
    Except String LevelAttribute :=
  if LevelAttribute.belowMin a.minimum v then .error "value below minimum"
  else if LevelAttribute.aboveMax a.maximum v then .error "value above maximum"
  else if LevelAttribute.offStep a.precision v then .error "value not a precision step"
  else .ok { a with value := some v }

/-- View of an object passed as origin to SeatCupraCharging.Settings:
for each brand field, the outer Option is hasattr and the inner Option
is the value of the attribute (None when unset). A generic host
Charging.Settings has neither field (both none). -/
structure ChargingSettingsOriginView where
  battery_care_enabled : Option (Option Bool)
  battery_care_target_level : Option (Option ℚ)
deriving DecidableEq

/-- The class SeatCupraCharging.Settings: the brand-specific fields it
attaches (the generic base-class fields copied by the host super().__init__
are host state the claims never read, and are not modelled). -/
structure SeatCupraChargingSettings where
  max_current_in_ampere : Option Bool
  battery_care_enabled : BoolAttr
  battery_care_target_level : LevelAttribute
deriving DecidableEq

/-- SeatCupraCharging.Settings.__init__ from charging.py: after the host
super().__init__ (with or without origin), set max_current_in_ampere to
None, attach fresh battery_care_enabled and battery_care_target_level
attributes, and constrain the level to minimum 0.0, maximum 100.0,
precision 5.0. The origin is received but its brand fields are never read. -/
def SeatCupraChargingSettings.init (origin : Option ChargingSettingsOriginView) :
    SeatCupraChargingSettings :=
  -- The branch on origin in the source only selects the host super call,
  -- which is not modelled; the brand fields are identical in both branches
  -- and never read from the origin.
  { max_current_in_ampere := none
    battery_care_enabled := { value := none }
    battery_care_target_level :=
      { value := none, minimum := some 0, maximum := some 100, precision := some 5 } }

/-- View of an object passed as origin to SeatCupraClimatization.Settings:
outer Option is hasattr, inner Option is the attribute value. -/
structure ClimaSettingsOriginView where
  climatization_at_unlock : Option (Option Bool)
  window_heating_enabled : Option (Option Bool)
  unit_in_car : Option (Option String)
deriving DecidableEq

/-- View of a generic host Climatization.Settings used as origin: it has
none of the brand attributes. -/
def genericClimaSettingsView : ClimaSettingsOriginView :=
  { climatization_at_unlock := none, window_heating_enabled := none, unit_in_car := none }

/-- The class SeatCupraClimatization.Settings: its brand-specific fields. -/
structure SeatCupraClimaSettings where
  climatization_at_unlock : BoolAttr
  window_heating_enabled : BoolAttr
  unit_in_car : StrAttr
deriving DecidableEq

/-- SeatCupraClimatization.Settings.__init__ from climatization.py: attach
the three fresh brand attributes, then, when an origin was given, copy each
one forward if the origin has the attribute and its value is not None. -/
def SeatCupraClimaSettings.init (origin : Option ClimaSettingsOriginView) :
    SeatCupraClimaSettings :=
  let fresh : SeatCupraClimaSettings :=
    { climatization_at_unlock := { value := none }
      window_heating_enabled := { value := none }
      unit_in_car := { value := none } }
  match origin with
  | none => fresh
  | some o =>
    { climatization_at_unlock :=
        match o.climatization_at_unlock with
        | some (some v) => { value := some v }
        | _ => { value := none }
      window_heating_enabled :=
        match o.window_heating_enabled with
        | some (some v) => { value := some v }
        | _ => { value := none }
      unit_in_car :=
        match o.unit_in_car with
        | some (some v) => { value := some v }
        | _ => { value := none } }

/-- The host ChargingConnector object owned by a Charging entity: its three
state attributes; each outer Option models the getattr presence probe of the
backfill block (None when the attribute is absent on this host version). -/
structure ChargingConnectorObj where
  connection_state : Option (EnumAttr ConnectorConnectionState)
  external_power : Option (EnumAttr ConnectorExternalPower)
  lock_state : Option (EnumAttr ConnectorLockState)
deriving DecidableEq

/-- The object state a SeatCupraCharging entity reaches right after the host
super().__init__ returned: the inherited state/type/connector shapes (outer
Option models the getattr presence probes of the backfill block), and the
generic self.settings that the fresh path hands over as Settings origin. -/
structure ChargingBaseState where
  state : Option (EnumAttr ChargingState)
  type : Option (EnumAttr ChargingType)
  connector : Option ChargingConnectorObj
  settings : ChargingSettingsOriginView
deriving DecidableEq

/-- View of the object passed as origin to SeatCupraCharging.__init__
(typed Optional[Charging]): for mode and preferred_mode the outer Option is
hasattr and the inner Option is the value; origin.settings is passed on to
the Settings constructor. -/
structure ChargingOriginView where
  mode : Option (Option SeatCupraChargeMode)
  preferred_mode : Option (Option SeatCupraChargeMode)
  settings : ChargingSettingsOriginView
deriving DecidableEq

/-- A SeatCupraCharging entity after __init__: the inherited shapes plus the
brand mode and preferred_mode attributes and the brand Settings. -/
structure SeatCupraChargingEnt where
  state : Option (EnumAttr ChargingState)
  type : Option (EnumAttr ChargingType)
  connector : Option ChargingConnectorObj
  mode : EnumAttr SeatCupraChargeMode
  preferred_mode : EnumAttr SeatCupraChargeMode
  settings : SeatCupraChargingSettings
deriving DecidableEq

/-- One step of the backfill block: when the attribute is present and its
value is None, set it to the UNKNOWN sentinel; absent attributes are
skipped (the getattr guard). -/
def backfillAttr {α : Type} (unknown : α) :
    Option (EnumAttr α) → Option (EnumAttr α)
  | none => none
  | some a => if a.value.isNone then some { value := some unknown } else some a

/-- The connector part of the try-block of SeatCupraCharging.__init__
(lines 66 to 73 of charging.py): backfill each of the three connector
attributes that is present and unset. -/
def connectorBackfill (c : ChargingConnectorObj) : ChargingConnectorObj :=
  { connection_state := backfillAttr ConnectorConnectionState.UNKNOWN c.connection_state
    external_power := backfillAttr ConnectorExternalPower.UNKNOWN c.external_power
    lock_state := backfillAttr ConnectorLockState.UNKNOWN c.lock_state }

/-- The try-block of SeatCupraCharging.__init__ (lines 57 to 76 of
charging.py): backfill state, type, mode, preferred_mode and, when the
connector is present, its three attributes. Every access is guarded by
getattr probes, so in this model no step can fail and the except branch is
unreachable; absent shapes are skipped. -/
def chargingBackfill (e : SeatCupraChargingEnt) : SeatCupraChargingEnt :=
  { e with
    state := backfillAttr ChargingState.UNKNOWN e.state
    type := backfillAttr ChargingType.UNKNOWN e.type
    mode := if e.mode.value.isNone then { value := some SeatCupraChargeMode.UNKNOWN } else e.mode
    preferred_mode :=
      if e.preferred_mode.value.isNone then { value := some SeatCupraChargeMode.UNKNOWN }
      else e.preferred_mode
    connector :=
      match e.connector with
      | none => none
      | some c => some (connectorBackfill c) }

/-- The origin_mode_value extraction of SeatCupraCharging.__init__: None
unless an origin was given, it has a mode attribute, and that attribute
holds a value. -/
def originModeValue (field : Option (Option SeatCupraChargeMode)) :
    Option SeatCupraChargeMode :=
  match field with
  | none => none
  | some v => v

/-- SeatCupraCharging.__init__ from charging.py, as a function of the state
the host super().__init__ produced (base) and of the origin argument: build
the brand Settings (from origin.settings, or from the generic self.settings
on the fresh path), attach fresh mode and preferred_mode attributes, copy
their values from the origin when present and non-None, then run the
backfill block. -/
def SeatCupraChargingInit (base : ChargingBaseState)
    (origin : Option ChargingOriginView) : SeatCupraChargingEnt :=
  let settings :=
    match origin with
    | some o => SeatCupraChargingSettings.init (some o.settings)
    | none => SeatCupraChargingSettings.init (some base.settings)
  let modeAttr : EnumAttr SeatCupraChargeMode :=
    match origin with
    | some o =>
      match originModeValue o.mode with
      | some v => { value := some v }
      | none => { value := none }
    | none => { value := none }
  let preferredAttr : EnumAttr SeatCupraChargeMode :=
    match origin with
    | some o =>
      match originModeValue o.preferred_mode with
      | some v => { value := some v }
      | none => { value := none }
    | none => { value := none }
  chargingBackfill
    { state := base.state, type := base.type, connector := base.connector,
      mode := modeAttr, preferred_mode := preferredAttr, settings := settings }

/-- Modelled from the spec: the state a fresh host Charging.__init__
produces (no origin): the state, type and connector attributes exist and
are unset, and self.settings is a generic Charging.Settings without brand
fields. -/
def freshChargingBase : ChargingBaseState :=
  { state := some { value := none }
    type := some { value := none }
    connector := some
      { connection_state := some { value := none }
        external_power := some { value := none }
        lock_state := some { value := none } }
    settings := { battery_care_enabled := none, battery_care_target_level := none } }

/-- The object state a SeatCupraClimatization entity reaches right after the
host super().__init__ returned: the inherited state attribute shape, and,
when super already produced a brand Settings (the isinstance test of
climatization.py line 26), that Settings. -/
structure ClimaBaseState where
  state : Option (EnumAttr ClimatizationState)
  settings : Option SeatCupraClimaSettings
deriving DecidableEq

/-- View of the object passed as origin to SeatCupraClimatization.__init__:
only its settings are read. -/
structure ClimaOriginView where
  settings : ClimaSettingsOriginView
deriving DecidableEq

/-- A SeatCupraClimatization entity after __init__. -/
structure SeatCupraClimaEnt where
  state : Option (EnumAttr ClimatizationState)
  settings : SeatCupraClimaSettings
deriving DecidableEq

/-- SeatCupraClimatization.__init__ from climatization.py, as a function of
the state the host super().__init__ produced and of the origin argument:
when an origin was given, keep the settings if super already produced a
brand Settings, else build one from origin.settings; on the fresh path
build one from the generic self.settings; finally backfill the state
attribute to UNKNOWN when present and unset (the try-block, whose getattr
guards make the except branch unreachable in this model). -/
def SeatCupraClimatizationInit (base : ClimaBaseState)
    (origin : Option ClimaOriginView) : SeatCupraClimaEnt :=
  let settings :=
    match origin with
    | some o =>
      match base.settings with
      | some s => s
      | none => SeatCupraClimaSettings.init (some o.settings)
    | none => SeatCupraClimaSettings.init (some genericClimaSettingsView)
  { state := backfillAttr ClimatizationState.UNKNOWN base.state
    settings := settings }

/-- Modelled from the spec: the state a fresh host Climatization.__init__
produces: the state attribute exists and is unset, and self.settings is a
generic Climatization.Settings (not the brand subclass). -/
def freshClimaBase : ClimaBaseState :=
  { state := some { value := none }, settings := none }

/-- The host Commands container (modelled): its commands dict, reduced to an
association list of name and enabled flag in insertion order (a Python dict
cannot hold two entries with the same key), and the enabled flag of the
container itself. -/
structure Commands where
  commands : List (String × Bool)
  enabled : Bool
deriving DecidableEq

/-- A freshly constructed Commands(parent=...) container: empty dict; its
initial enabled flag is host state the connector code never relies on
(_ensure_base_commands forces it, _ensure_charging_commands ignores it). -/
def Commands.new : Commands :=
  { commands := [], enabled := false }

/-- Dict lookup commands.get(name). -/
def lookupCmd : List (String × Bool) → String → Option Bool
  | [], _ => none
  | (k, b) :: rest, n => if k = n then some b else lookupCmd rest n

/-- Mutation of the enabled flag of the command stored under a name
(command.enabled = True on the object held in the dict). -/
def setCmdEnabled : List (String × Bool) → String → Bool → List (String × Bool)
  | [], _, _ => []
  | (k, b) :: rest, n, v =>
    if k = n then (k, v) :: rest else (k, b) :: setCmdEnabled rest n v

/-- Dict insertion commands[name] = command: overwrite the entry when the
key is present, else append. -/
def addCmd (l : List (String × Bool)) (n : String) (v : Bool) :
    List (String × Bool) :=
  if (lookupCmd l n).isSome then setCmdEnabled l n v else l ++ [(n, v)]

/-- The method commands.contains_command(name). -/
def Commands.contains_command (c : Commands) (n : String) : Bool :=
  (lookupCmd c.commands n).isSome

/-- The command step of SeatCupraVehicle._ensure_base_commands: if the
start-stop command is absent, create it enabled and add it; else flip the
stored command to enabled when it is disabled. -/
def ensureBaseStep (c : Commands) : Commands :=
  if ¬c.contains_command "start-stop" then
    { c with commands := addCmd c.commands "start-stop" true }
  else
    match lookupCmd c.commands "start-stop" with
    | some en =>
      if ¬en then { c with commands := setCmdEnabled c.commands "start-stop" true } else c
    | none => c

/-- The closing step of SeatCupraVehicle._ensure_base_commands: enable the
container itself when it is disabled. -/
def ensureBaseFinish (c : Commands) : Commands :=
  if ¬c.enabled then { c with enabled := true } else c

/-- The body of SeatCupraVehicle._ensure_base_commands acting on one
(possibly absent) commands container: create the container if absent, run
the command step, then the container-enable step. -/
def ensureBaseCore (copt : Option Commands) : Commands :=
  ensureBaseFinish (ensureBaseStep (copt.getD Commands.new))

/-- SeatCupraVehicle._ensure_base_commands from vehicle.py: the outer Option
is the climatization entity presence guard; inside it, the commands
container of the climatization entity. -/
def ensure_base_commands : Option (Option Commands) → Option (Option Commands)
  | none => none
  | some copt => some (some (ensureBaseCore copt))

/-- The command step of SeatCupraElectricVehicle._ensure_charging_commands:
add a start-stop command, created enabled, only when none is present. There
is no step enabling an existing command or the container. -/
def ensureChargingStep (c : Commands) : Commands :=
  if ¬c.contains_command "start-stop" then
    { c with commands := addCmd c.commands "start-stop" true }
  else c

/-- The body of SeatCupraElectricVehicle._ensure_charging_commands acting on
one (possibly absent) commands container: create the container if absent,
then run the command step. -/
def ensureChargingCore (copt : Option Commands) : Commands :=
  ensureChargingStep (copt.getD Commands.new)

/-- SeatCupraElectricVehicle._ensure_charging_commands from vehicle.py: the
outer Option is the charging entity presence guard. -/
def ensure_charging_commands : Option (Option Commands) → Option (Option Commands)
  | none => none
  | some copt => some (some (ensureChargingCore copt))

/-- A charging settings origin carrying non-null brand values, used to
exercise the copy-forward behaviour of SeatCupraCharging.Settings. -/
def chargingSettingsOriginWithValues : ChargingSettingsOriginView :=
  { battery_care_enabled := some (some true)
    battery_care_target_level := some (some 80) }

/-- A commands container already holding a disabled start-stop command in a
disabled container. -/
def disabledStartStop : Commands :=
  { commands := [("start-stop", false)], enabled := false }

/-- A charging base state missing every inherited shape the backfill
probes for. -/
def degenerateChargingBase : ChargingBaseState :=
  { state := none, type := none, connector := none
    settings := { battery_care_enabled := none, battery_care_target_level := none } }

/-- A connector object missing its connection_state and lock_state
attributes, with external_power present and unset. -/
def partialConnector : ChargingConnectorObj :=
  { connection_state := none
    external_power := some { value := none }
    lock_state := none }

/-- A charging base state whose connector is present but missing nested
attributes. -/
def partialChargingBase : ChargingBaseState :=
  { state := some { value := none }, type := some { value := none }
    connector := some partialConnector
    settings := { battery_care_enabled := none, battery_care_target_level := none } }

/-- C1: the charging-state mapping table is total and deterministic over all
eleven members of SeatCupraChargingState: every vendor member looks up to
exactly one generic ChargingState, the table holds no duplicate key,
UNKNOWN maps to UNKNOWN and CHARGE_PURPOSE_REACHED_CONSERVATION maps to
CONSERVATION. -/
theorem C1_mapping_total_deterministic :
    (∀ m : SeatCupraChargingState, ∃ g : ChargingState,
      mappingLookup m = some g ∧ ∀ g2 : ChargingState, mappingLookup m = some g2 → g2 = g) ∧
    (mapping_seatcupra_charging_state.map Prod.fst).Nodup ∧
    mappingLookup SeatCupraChargingState.UNKNOWN = some ChargingState.UNKNOWN ∧
    mappingLookup SeatCupraChargingState.CHARGE_PURPOSE_REACHED_CONSERVATION =
      some ChargingState.CONSERVATION := by
  refine ⟨?_, by decide, by decide, by decide⟩
  intro m
  revert m
  decide

/-- C2: fresh construction (origin absent) leaves every backfilled
state/enum attribute holding the UNKNOWN member of its enum, never unset:
state, type, mode, preferred_mode and the nested connector's
connection_state, external_power and lock_state on SeatCupraCharging, and
state on SeatCupraClimatization. -/
theorem C2_fresh_construction_backfills_unknown :
    (SeatCupraChargingInit freshChargingBase none).state =
      some { value := some ChargingState.UNKNOWN } ∧
    (SeatCupraChargingInit freshChargingBase none).type =
      some { value := some ChargingType.UNKNOWN } ∧
    (SeatCupraChargingInit freshChargingBase none).mode =
      { value := some SeatCupraChargeMode.UNKNOWN } ∧
    (SeatCupraChargingInit freshChargingBase none).preferred_mode =
      { value := some SeatCupraChargeMode.UNKNOWN } ∧
    (SeatCupraChargingInit freshChargingBase none).connector =
      some { connection_state := some { value := some ConnectorConnectionState.UNKNOWN }
             external_power := some { value := some ConnectorExternalPower.UNKNOWN }
             lock_state := some { value := some ConnectorLockState.UNKNOWN } } ∧
    (SeatCupraClimatizationInit freshClimaBase none).state =
      some { value := some ClimatizationState.UNKNOWN } := by
  refine ⟨rfl, rfl, rfl, rfl, rfl, rfl⟩

/-- C7 counterexample: the claim says constructing a vendor enum from an
unmatched raw string does not raise; under Python Enum semantics the
_missing_ hook returns None and the construction raises ValueError, here on
the concrete input "turboCharging" for both vendor enums. -/
theorem C7_counterexample_parse_raises :
    SeatCupraChargingState.call "turboCharging" =
      Except.error "ValueError: turboCharging is not a valid SeatCupraChargingState" ∧
    SeatCupraChargeMode.call "turboCharging" =
      Except.error "ValueError: turboCharging is not a valid SeatCupraChargeMode" := by
  exact ⟨rfl, rfl⟩

/-- C7 amended: for every raw string matching no member, the _missing_ hook
logs the diagnostic line and returns None, upon which the enum constructor
raises the normal ValueError (it never yields a member); the attribute is
then left unresolved and the backfill of an unset attribute yields
UNKNOWN. -/
theorem C7_amended_unrecognized_string_logs_and_raises (s : String)
    (h : SeatCupraChargingState.ofRaw s = none)
    (h' : SeatCupraChargeMode.ofRaw s = none) :
    (SeatCupraChargingState.missingHook s).1 = none ∧
    (SeatCupraChargingState.missingHook s).2 =
      "Unknown SeatCupraChargingState value: " ++ s ∧
    SeatCupraChargingState.call s =
      Except.error ("ValueError: " ++ s ++ " is not a valid SeatCupraChargingState") ∧
    (SeatCupraChargeMode.missingHook s).1 = none ∧
    SeatCupraChargeMode.call s =
      Except.error ("ValueError: " ++ s ++ " is not a valid SeatCupraChargeMode") ∧
    backfillAttr ChargingState.UNKNOWN (some { value := none }) =
      some { value := some ChargingState.UNKNOWN } := by
  refine ⟨rfl, rfl, ?_, rfl, ?_, rfl⟩
  · simp [SeatCupraChargingState.call, h, SeatCupraChargingState.missingHook]
  · simp [SeatCupraChargeMode.call, h', SeatCupraChargeMode.missingHook]

/-- Witness for C7 amended at the concrete raw string "turboCharging". -/
theorem C7_amended_witness :
    (SeatCupraChargingState.missingHook "turboCharging").1 = none ∧
    (SeatCupraChargingState.missingHook "turboCharging").2 =
      "Unknown SeatCupraChargingState value: " ++ "turboCharging" ∧
    SeatCupraChargingState.call "turboCharging" =
      Except.error ("ValueError: " ++ "turboCharging" ++ " is not a valid SeatCupraChargingState") ∧
    (SeatCupraChargeMode.missingHook "turboCharging").1 = none ∧
    SeatCupraChargeMode.call "turboCharging" =
      Except.error ("ValueError: " ++ "turboCharging" ++ " is not a valid SeatCupraChargeMode") ∧
    backfillAttr ChargingState.UNKNOWN (some { value := none }) =
      some { value := some ChargingState.UNKNOWN } :=
  C7_amended_unrecognized_string_logs_and_raises "turboCharging" rfl rfl

/-- C6 counterexample: a charging settings origin defining
battery_care_enabled = True and battery_care_target_level = 80, yet the
settings constructed from it leave both brand fields unset — the charging
Settings constructor never reads them from the origin. -/
theorem C6_counterexample_battery_care_not_copied :
    chargingSettingsOriginWithValues.battery_care_enabled = some (some true) ∧
    chargingSettingsOriginWithValues.battery_care_target_level = some (some 80) ∧
    (SeatCupraChargingSettings.init
      (some chargingSettingsOriginWithValues)).battery_care_enabled.value = none ∧
    (SeatCupraChargingSettings.init
      (some chargingSettingsOriginWithValues)).battery_care_target_level.value = none := by
  exact ⟨rfl, rfl, rfl, rfl⟩

/-- C6 amended: the climatization settings copy each brand field forward
from the origin exactly when the origin defines it with a non-null value,
and leave it unset otherwise; the charging settings however always start
with battery_care_enabled, battery_care_target_level and
max_current_in_ampere unset, regardless of the origin. -/
theorem C6_amended_settings_copy_forward (co : Option ChargingSettingsOriginView)
    (ov : ClimaSettingsOriginView) :
    (SeatCupraChargingSettings.init co).battery_care_enabled.value = none ∧
    (SeatCupraChargingSettings.init co).battery_care_target_level.value = none ∧
    (SeatCupraChargingSettings.init co).max_current_in_ampere = none ∧
    (∀ b : Bool, ov.climatization_at_unlock = some (some b) →
      (SeatCupraClimaSettings.init (some ov)).climatization_at_unlock.value = some b) ∧
    (∀ b : Bool, ov.window_heating_enabled = some (some b) →
      (SeatCupraClimaSettings.init (some ov)).window_heating_enabled.value = some b) ∧
    (∀ u : String, ov.unit_in_car = some (some u) →
      (SeatCupraClimaSettings.init (some ov)).unit_in_car.value = some u) ∧
    (ov.climatization_at_unlock = none →
      (SeatCupraClimaSettings.init (some ov)).climatization_at_unlock.value = none) ∧
    (ov.climatization_at_unlock = some none →
      (SeatCupraClimaSettings.init (some ov)).climatization_at_unlock.value = none) ∧
    (ov.window_heating_enabled = none →
      (SeatCupraClimaSettings.init (some ov)).window_heating_enabled.value = none) ∧
    (ov.window_heating_enabled = some none →
      (SeatCupraClimaSettings.init (some ov)).window_heating_enabled.value = none) ∧
    (ov.unit_in_car = none →
      (SeatCupraClimaSettings.init (some ov)).unit_in_car.value = none) ∧
    (ov.unit_in_car = some none →
      (SeatCupraClimaSettings.init (some ov)).unit_in_car.value = none) := by
  refine ⟨rfl, rfl, rfl, ?_, ?_, ?_, ?_, ?_, ?_, ?_, ?_, ?_⟩
  · intro b h; simp [SeatCupraClimaSettings.init, h]
  · intro b h; simp [SeatCupraClimaSettings.init, h]
  · intro u h; simp [SeatCupraClimaSettings.init, h]
  · intro h; simp [SeatCupraClimaSettings.init, h]
  · intro h; simp [SeatCupraClimaSettings.init, h]
  · intro h; simp [SeatCupraClimaSettings.init, h]
  · intro h; simp [SeatCupraClimaSettings.init, h]
  · intro h; simp [SeatCupraClimaSettings.init, h]
  · intro h; simp [SeatCupraClimaSettings.init, h]

/-- Witness for C6 amended: one concrete origin holding all three
climatization values (copied forward), and one defining none of them with a
non-null value (all three start unset). -/
theorem C6_amended_witness :
    (SeatCupraChargingSettings.init (some chargingSettingsOriginWithValues)
      ).battery_care_enabled.value = none ∧
    (SeatCupraClimaSettings.init (some
      { climatization_at_unlock := some (some true)
        window_heating_enabled := some (some false)
        unit_in_car := some (some "celsius") })).climatization_at_unlock.value = some true ∧
    (SeatCupraClimaSettings.init (some
      { climatization_at_unlock := some none
        window_heating_enabled := some none
        unit_in_car := none })).climatization_at_unlock.value = none ∧
    (SeatCupraClimaSettings.init (some
      { climatization_at_unlock := some none
        window_heating_enabled := some none
        unit_in_car := none })).window_heating_enabled.value = none ∧
    (SeatCupraClimaSettings.init (some
      { climatization_at_unlock := some none
        window_heating_enabled := some none
        unit_in_car := none })).unit_in_car.value = none := by
  have h := C6_amended_settings_copy_forward (some chargingSettingsOriginWithValues)
    { climatization_at_unlock := some (some true)
      window_heating_enabled := some (some false)
      unit_in_car := some (some "celsius") }
  have h2 := C6_amended_settings_copy_forward (some chargingSettingsOriginWithValues)
    { climatization_at_unlock := some none
      window_heating_enabled := some none
      unit_in_car := none }
  obtain ⟨g1, -, -, g4, -, -, -, -, -, -, -, -⟩ := h
  obtain ⟨-, -, -, -, -, -, -, k8, -, k10, k11, -⟩ := h2
  exact ⟨g1, g4 true rfl, k8 rfl, k10 rfl, k11 rfl⟩

/-- C3: an entity constructed with an origin whose brand-specific attribute
holds a non-null value keeps that value: the charging mode and
preferred_mode attributes, and the climatization settings fields
climatization_at_unlock, window_heating_enabled and unit_in_car (on the
usual path where the host super produced a generic settings object); in
particular an origin with mode TIMER yields mode TIMER, not UNKNOWN. -/
theorem C3_origin_values_preserved (base : ChargingBaseState)
    (o : ChargingOriginView) (cb : ClimaBaseState) (co : ClimaOriginView) :
    (∀ v : SeatCupraChargeMode, o.mode = some (some v) →
      (SeatCupraChargingInit base (some o)).mode = { value := some v }) ∧
    (∀ w : SeatCupraChargeMode, o.preferred_mode = some (some w) →
      (SeatCupraChargingInit base (some o)).preferred_mode = { value := some w }) ∧
    (∀ b : Bool, cb.settings = none → co.settings.climatization_at_unlock = some (some b) →
      (SeatCupraClimatizationInit cb (some co)).settings.climatization_at_unlock.value = some b) ∧
    (∀ b : Bool, cb.settings = none → co.settings.window_heating_enabled = some (some b) →
      (SeatCupraClimatizationInit cb (some co)).settings.window_heating_enabled.value = some b) ∧
    (∀ u : String, cb.settings = none → co.settings.unit_in_car = some (some u) →
      (SeatCupraClimatizationInit cb (some co)).settings.unit_in_car.value = some u) := by
  refine ⟨?_, ?_, ?_, ?_, ?_⟩
  · intro v h
    simp [SeatCupraChargingInit, chargingBackfill, originModeValue, h]
  · intro w h
    simp [SeatCupraChargingInit, chargingBackfill, originModeValue, h]
  · intro b hs h
    simp [SeatCupraClimatizationInit, hs, SeatCupraClimaSettings.init, h]
  · intro b hs h
    simp [SeatCupraClimatizationInit, hs, SeatCupraClimaSettings.init, h]
  · intro u hs h
    simp [SeatCupraClimatizationInit, hs, SeatCupraClimaSettings.init, h]

/-- Witness for C3: an origin snapshot with mode TIMER and no new
observation yields an upgraded entity with mode TIMER. -/
theorem C3_witness :
    (SeatCupraChargingInit freshChargingBase
      (some { mode := some (some SeatCupraChargeMode.TIMER)
              preferred_mode := some none
              settings := { battery_care_enabled := none, battery_care_target_level := none } })
      ).mode = { value := some SeatCupraChargeMode.TIMER } ∧
    (SeatCupraClimatizationInit freshClimaBase
      (some { settings := { climatization_at_unlock := some (some true)
                            window_heating_enabled := none
                            unit_in_car := none } })
      ).settings.climatization_at_unlock.value = some true := by
  have h := C3_origin_values_preserved freshChargingBase
    { mode := some (some SeatCupraChargeMode.TIMER)
      preferred_mode := some none
      settings := { battery_care_enabled := none, battery_care_target_level := none } }
    freshClimaBase
    { settings := { climatization_at_unlock := some (some true)
                    window_heating_enabled := none
                    unit_in_car := none } }
  exact ⟨h.1 SeatCupraChargeMode.TIMER rfl, h.2.2.1 true rfl rfl⟩

/-- A rational is an integer multiple of 5 exactly when dividing it by 5
gives denominator 1, the computable check offStep performs. -/
theorem den_div_five_eq_one_iff (v : ℚ) :
    (v / 5).den = 1 ↔ ∃ k : ℤ, v = (k : ℚ) * 5 := by
  constructor
  · intro h
    refine ⟨(v / 5).num, ?_⟩
    have h5 : (5 : ℚ) ≠ 0 := by norm_num
    have hq : ((v / 5).num : ℚ) = v / 5 := (Rat.den_eq_one_iff _).mp h
    rw [hq]
    field_simp
  · rintro ⟨k, rfl⟩
    have h5 : (5 : ℚ) ≠ 0 := by norm_num
    rw [mul_div_cancel_right₀ _ h5]
    exact Rat.den_intCast k

/-- C9: the battery_care_target_level attribute is constructed with minimum
0, maximum 100 and precision 5, and (with the host enforcement of these
constraint fields, modelled from the spec) assigning a value below 0, above
100 or not an integer multiple of 5 is rejected, while an in-range multiple
of 5 is stored as given. -/
theorem C9_battery_care_target_level_bounds (co : Option ChargingSettingsOriginView)
    (v : ℚ) :
    (SeatCupraChargingSettings.init co).battery_care_target_level.minimum = some 0 ∧
    (SeatCupraChargingSettings.init co).battery_care_target_level.maximum = some 100 ∧
    (SeatCupraChargingSettings.init co).battery_care_target_level.precision = some 5 ∧
    (v < 0 →
      ((SeatCupraChargingSettings.init co).battery_care_target_level.setValue v).isOk = false) ∧
    (100 < v →
      ((SeatCupraChargingSettings.init co).battery_care_target_level.setValue v).isOk = false) ∧
    (0 ≤ v → v ≤ 100 → (¬∃ k : ℤ, v = (k : ℚ) * 5) →
      ((SeatCupraChargingSettings.init co).battery_care_target_level.setValue v).isOk = false) ∧
    (0 ≤ v → v ≤ 100 → (∃ k : ℤ, v = (k : ℚ) * 5) →
      (SeatCupraChargingSettings.init co).battery_care_target_level.setValue v =
        Except.ok { value := some v, minimum := some 0, maximum := some 100, precision := some 5 }) := by
  refine ⟨rfl, rfl, rfl, ?_, ?_, ?_, ?_⟩
  · intro h
    simp [SeatCupraChargingSettings.init, LevelAttribute.setValue,
      LevelAttribute.belowMin, h, Except.isOk, Except.toBool]
  · intro h
    have h0 : ¬v < 0 := by linarith
    simp [SeatCupraChargingSettings.init, LevelAttribute.setValue,
      LevelAttribute.belowMin, LevelAttribute.aboveMax, h, h0, Except.isOk, Except.toBool]
  · intro h0 h100 hk
    have hden : (v / 5).den ≠ 1 := fun hd => hk ((den_div_five_eq_one_iff v).mp hd)
    have hlt : ¬v < 0 := by linarith
    have hgt : ¬(100 : ℚ) < v := by linarith
    simp [SeatCupraChargingSettings.init, LevelAttribute.setValue,
      LevelAttribute.belowMin, LevelAttribute.aboveMax, LevelAttribute.offStep,
      hlt, hgt, hden, Except.isOk, Except.toBool]
  · intro h0 h100 hk
    have hden : (v / 5).den = 1 := (den_div_five_eq_one_iff v).mpr hk
    have hlt : ¬v < 0 := by linarith
    have hgt : ¬(100 : ℚ) < v := by linarith
    simp [SeatCupraChargingSettings.init, LevelAttribute.setValue,
      LevelAttribute.belowMin, LevelAttribute.aboveMax, LevelAttribute.offStep,
      hlt, hgt, hden]

/-- Witness for C9: value 103 is rejected, value 35 is stored. -/
theorem C9_witness :
    ((SeatCupraChargingSettings.init none).battery_care_target_level.setValue 103).isOk = false ∧
    (SeatCupraChargingSettings.init none).battery_care_target_level.setValue 35 =
      Except.ok { value := some 35, minimum := some 0, maximum := some 100, precision := some 5 } := by
  refine ⟨(C9_battery_care_target_level_bounds none 103).2.2.2.2.1 (by norm_num), ?_⟩
  exact (C9_battery_care_target_level_bounds none 35).2.2.2.2.2.2
    (by norm_num) (by norm_num) ⟨7, by norm_num⟩

/-- C8: the backfill is fail-safe: with any combination of absent shapes —
state, type or connector missing, or the connector present with any of its
nested connection_state, external_power or lock_state attributes missing,
for either entity — construction still completes: the absent parts are
skipped and stay absent, the connector is still processed attribute-wise
when present, and the remaining steps still run (a present unset sibling
attribute is still backfilled, the brand settings are built with their
constraints and the mode attribute is still backfilled). -/
theorem C8_backfill_fail_safe (base : ChargingBaseState)
    (o : Option ChargingOriginView) (c : ChargingConnectorObj)
    (cb : ClimaBaseState) (co : Option ClimaOriginView) :
    (base.state = none → (SeatCupraChargingInit base o).state = none) ∧
    (base.type = none → (SeatCupraChargingInit base o).type = none) ∧
    (base.connector = none → (SeatCupraChargingInit base o).connector = none) ∧
    (base.connector = some c →
      (SeatCupraChargingInit base o).connector = some (connectorBackfill c)) ∧
    (c.connection_state = none → (connectorBackfill c).connection_state = none) ∧
    (c.external_power = none → (connectorBackfill c).external_power = none) ∧
    (c.lock_state = none → (connectorBackfill c).lock_state = none) ∧
    (c.connection_state = none → c.external_power = some { value := none } →
      (connectorBackfill c).external_power =
        some { value := some ConnectorExternalPower.UNKNOWN }) ∧
    (SeatCupraChargingInit base none).mode =
      { value := some SeatCupraChargeMode.UNKNOWN } ∧
    (SeatCupraChargingInit base o).settings.battery_care_target_level.minimum = some 0 ∧
    (cb.state = none → (SeatCupraClimatizationInit cb co).state = none) := by
  refine ⟨?_, ?_, ?_, ?_, ?_, ?_, ?_, ?_, ?_, ?_, ?_⟩
  · intro h; simp [SeatCupraChargingInit, chargingBackfill, backfillAttr, h]
  · intro h; simp [SeatCupraChargingInit, chargingBackfill, backfillAttr, h]
  · intro h; simp [SeatCupraChargingInit, chargingBackfill, h]
  · intro h; simp [SeatCupraChargingInit, chargingBackfill, h]
  · intro h; simp [connectorBackfill, backfillAttr, h]
  · intro h; simp [connectorBackfill, backfillAttr, h]
  · intro h; simp [connectorBackfill, backfillAttr, h]
  · intro h hp; simp [connectorBackfill, backfillAttr, h, hp]
  · simp [SeatCupraChargingInit, chargingBackfill, originModeValue]
  · cases o <;> rfl
  · intro h; simp [SeatCupraClimatizationInit, backfillAttr, h]

/-- Witness for C8 at a base state missing every probed shape, and at one
whose connector is present but missing nested attributes: the constructed
entities skip the absent parts, still backfill the present unset sibling,
and complete. -/
theorem C8_witness :
    (degenerateChargingBase.state = none ∧
      (SeatCupraChargingInit degenerateChargingBase none).state = none) ∧
    (SeatCupraChargingInit degenerateChargingBase none).connector = none ∧
    (SeatCupraChargingInit degenerateChargingBase none).mode =
      { value := some SeatCupraChargeMode.UNKNOWN } ∧
    (SeatCupraChargingInit partialChargingBase none).connector =
      some (connectorBackfill partialConnector) ∧
    (connectorBackfill partialConnector).connection_state = none ∧
    (connectorBackfill partialConnector).lock_state = none ∧
    (connectorBackfill partialConnector).external_power =
      some { value := some ConnectorExternalPower.UNKNOWN } ∧
    (SeatCupraClimatizationInit { state := none, settings := none } none).state = none := by
  have h := C8_backfill_fail_safe degenerateChargingBase none partialConnector
    { state := none, settings := none } none
  have h2 := C8_backfill_fail_safe partialChargingBase none partialConnector
    { state := none, settings := none } none
  obtain ⟨g1, -, g3, -, g5, -, g7, g8, g9, -, g11⟩ := h
  obtain ⟨-, -, -, k4, -, -, -, -, -, -, -⟩ := h2
  exact ⟨⟨rfl, g1 rfl⟩, g3 rfl, g9, k4 rfl, g5 rfl, g7 rfl, g8 rfl rfl, g11 rfl⟩

/-- C10: backfill never overwrites an observed value and touches nothing
else: every attribute holding a non-null value when the backfill runs is
unchanged by it, the UNKNOWN sentinel is written only over a null value,
and the settings are left untouched. -/
theorem C10_backfill_preserves_observed (e : SeatCupraChargingEnt)
    (c : ChargingConnectorObj) (cb : ClimaBaseState) (co : Option ClimaOriginView) :
    (chargingBackfill e).settings = e.settings ∧
    (∀ a : EnumAttr ChargingState, ∀ v : ChargingState,
      e.state = some a → a.value = some v → (chargingBackfill e).state = some a) ∧
    (∀ a : EnumAttr ChargingType, ∀ v : ChargingType,
      e.type = some a → a.value = some v → (chargingBackfill e).type = some a) ∧
    (∀ v : SeatCupraChargeMode, e.mode.value = some v →
      (chargingBackfill e).mode = e.mode) ∧
    (∀ v : SeatCupraChargeMode, e.preferred_mode.value = some v →
      (chargingBackfill e).preferred_mode = e.preferred_mode) ∧
    (∀ a : EnumAttr ConnectorConnectionState, ∀ v : ConnectorConnectionState,
      c.connection_state = some a → a.value = some v →
      (connectorBackfill c).connection_state = some a) ∧
    (∀ a : EnumAttr ConnectorExternalPower, ∀ v : ConnectorExternalPower,
      c.external_power = some a → a.value = some v →
      (connectorBackfill c).external_power = some a) ∧
    (∀ a : EnumAttr ConnectorLockState, ∀ v : ConnectorLockState,
      c.lock_state = some a → a.value = some v →
      (connectorBackfill c).lock_state = some a) ∧
    (e.connector = some c → (chargingBackfill e).connector = some (connectorBackfill c)) ∧
    (∀ a : EnumAttr ChargingState, e.state = some a → a.value = none →
      (chargingBackfill e).state = some { value := some ChargingState.UNKNOWN }) ∧
    (∀ a : EnumAttr ClimatizationState, ∀ v : ClimatizationState,
      cb.state = some a → a.value = some v →
      (SeatCupraClimatizationInit cb co).state = some a) := by
  refine ⟨rfl, ?_, ?_, ?_, ?_, ?_, ?_, ?_, ?_, ?_, ?_⟩
  · intro a v h hv; simp [chargingBackfill, backfillAttr, h, hv]
  · intro a v h hv; simp [chargingBackfill, backfillAttr, h, hv]
  · intro v hv; simp [chargingBackfill, hv]
  · intro v hv; simp [chargingBackfill, hv]
  · intro a v h hv; simp [connectorBackfill, backfillAttr, h, hv]
  · intro a v h hv; simp [connectorBackfill, backfillAttr, h, hv]
  · intro a v h hv; simp [connectorBackfill, backfillAttr, h, hv]
  · intro h; simp [chargingBackfill, h]
  · intro a h hv; simp [chargingBackfill, backfillAttr, h, hv]
  · intro a v h hv; simp [SeatCupraClimatizationInit, backfillAttr, h, hv]

/-- Witness for C10 at a concrete entity whose every attribute is observed:
the backfill is the identity on it. -/
theorem C10_witness :
    (chargingBackfill
      { state := some { value := some ChargingState.CHARGING }
        type := some { value := some ChargingType.AC }
        connector := some
          { connection_state := some { value := some ConnectorConnectionState.CONNECTED }
            external_power := some { value := some ConnectorExternalPower.AVAILABLE }
            lock_state := some { value := some ConnectorLockState.LOCKED } }
        mode := { value := some SeatCupraChargeMode.TIMER }
        preferred_mode := { value := some SeatCupraChargeMode.MANUAL }
        settings := SeatCupraChargingSettings.init none }).state =
      some { value := some ChargingState.CHARGING } ∧
    (SeatCupraClimatizationInit
      { state := some { value := some ClimatizationState.HEATING }, settings := none }
      none).state = some { value := some ClimatizationState.HEATING } := by
  have h := C10_backfill_preserves_observed
    { state := some { value := some ChargingState.CHARGING }
      type := some { value := some ChargingType.AC }
      connector := some
        { connection_state := some { value := some ConnectorConnectionState.CONNECTED }
          external_power := some { value := some ConnectorExternalPower.AVAILABLE }
          lock_state := some { value := some ConnectorLockState.LOCKED } }
      mode := { value := some SeatCupraChargeMode.TIMER }
      preferred_mode := { value := some SeatCupraChargeMode.MANUAL }
      settings := SeatCupraChargingSettings.init none }
    { connection_state := some { value := some ConnectorConnectionState.CONNECTED }
      external_power := some { value := some ConnectorExternalPower.AVAILABLE }
      lock_state := some { value := some ConnectorLockState.LOCKED } }
    { state := some { value := some ClimatizationState.HEATING }, settings := none }
    none
  exact ⟨h.2.1 _ ChargingState.CHARGING rfl rfl,
    h.2.2.2.2.2.2.2.2.2.2 _ ClimatizationState.HEATING rfl rfl⟩

/-- Appending a new key to a dict makes it found. -/
theorem lookupCmd_append_self (l : List (String × Bool)) (n : String) (v : Bool)
    (h : lookupCmd l n = none) : lookupCmd (l ++ [(n, v)]) n = some v := by
  induction l with
  | nil => simp [lookupCmd]
  | cons p rest ih =>
    obtain ⟨k, b⟩ := p
    by_cases hk : k = n
    · simp [lookupCmd, hk] at h
    · simp only [lookupCmd, hk, if_false, List.cons_append] at h ⊢
      exact ih h

/-- Overwriting the entry under a present key makes the new flag found. -/
theorem lookupCmd_set_self (l : List (String × Bool)) (n : String) (v b : Bool)
    (h : lookupCmd l n = some b) : lookupCmd (setCmdEnabled l n v) n = some v := by
  induction l with
  | nil => simp [lookupCmd] at h
  | cons p rest ih =>
    obtain ⟨k, b0⟩ := p
    by_cases hk : k = n
    · simp [lookupCmd, setCmdEnabled, hk]
    · simp only [lookupCmd, hk, if_false] at h
      simp only [setCmdEnabled, hk, if_false, lookupCmd]
      exact ih h

/-- Overwriting an entry never changes the key list. -/
theorem setCmdEnabled_keys (l : List (String × Bool)) (n : String) (v : Bool) :
    (setCmdEnabled l n v).map Prod.fst = l.map Prod.fst := by
  induction l with
  | nil => rfl
  | cons p rest ih =>
    obtain ⟨k, b⟩ := p
    by_cases hk : k = n <;> simp [setCmdEnabled, hk, ih]

/-- A key the dict lookup misses is not among the keys. -/
theorem lookupCmd_none_not_mem (l : List (String × Bool)) (n : String)
    (h : lookupCmd l n = none) : n ∉ l.map Prod.fst := by
  induction l with
  | nil => simp
  | cons p rest ih =>
    obtain ⟨k, b⟩ := p
    by_cases hk : k = n
    · simp [lookupCmd, hk] at h
    · simp only [lookupCmd, hk, if_false] at h
      simp only [List.map_cons, List.mem_cons]
      rintro (rfl | hm)
      · exact hk rfl
      · exact ih h hm

/-- Duplicate-freedom of command names. -/
def Commands.nodupNames (c : Commands) : Prop :=
  (c.commands.map Prod.fst).Nodup

/-- The command step leaves the container enabled flag alone. -/
theorem ensureBaseStep_enabled (c : Commands) :
    (ensureBaseStep c).enabled = c.enabled := by
  unfold ensureBaseStep
  rcases hl : lookupCmd c.commands "start-stop" with _ | en
  · have hcont : c.contains_command "start-stop" = false := by
      simp [Commands.contains_command, hl]
    simp [hcont]
  · have hcont : c.contains_command "start-stop" = true := by
      simp [Commands.contains_command, hl]
    cases en <;> simp [hcont, hl]

/-- After the command step, the start-stop command is stored enabled. -/
theorem ensureBaseStep_lookup (c : Commands) :
    lookupCmd (ensureBaseStep c).commands "start-stop" = some true := by
  unfold ensureBaseStep
  rcases hl : lookupCmd c.commands "start-stop" with _ | en
  · have hcont : c.contains_command "start-stop" = false := by
      simp [Commands.contains_command, hl]
    simp only [hcont, Bool.false_eq_true, not_false_iff, if_true]
    simpa [addCmd, hl] using lookupCmd_append_self c.commands "start-stop" true hl
  · have hcont : c.contains_command "start-stop" = true := by
      simp [Commands.contains_command, hl]
    cases en with
    | false =>
      simp only [hcont, not_true, if_false, hl, Bool.false_eq_true, not_false_iff, if_true]
      exact lookupCmd_set_self c.commands "start-stop" true false hl
    | true =>
      simp [hcont, hl]

/-- The closing step enables the container and keeps its commands. -/
theorem ensureBaseFinish_spec (c : Commands) :
    (ensureBaseFinish c).enabled = true ∧ (ensureBaseFinish c).commands = c.commands := by
  unfold ensureBaseFinish
  by_cases he : c.enabled <;> simp [he]

/-- After _ensure_base_commands runs on a container, the start-stop command
is present and enabled and the container is enabled. -/
theorem ensureBaseCore_post (copt : Option Commands) :
    lookupCmd (ensureBaseCore copt).commands "start-stop" = some true ∧
    (ensureBaseCore copt).enabled = true := by
  unfold ensureBaseCore
  obtain ⟨he, hcmds⟩ := ensureBaseFinish_spec (ensureBaseStep (copt.getD Commands.new))
  rw [hcmds]
  exact ⟨ensureBaseStep_lookup _, he⟩

/-- A container on which the start-stop command is already present and
enabled and which is itself enabled is a fixed point of
_ensure_base_commands. -/
theorem ensureBaseCore_fixed (c : Commands)
    (hl : lookupCmd c.commands "start-stop" = some true)
    (he : c.enabled = true) : ensureBaseCore (some c) = c := by
  have hcont : c.contains_command "start-stop" = true := by
    simp [Commands.contains_command, hl]
  unfold ensureBaseCore ensureBaseStep ensureBaseFinish
  simp [hcont, hl, he]

/-- After _ensure_charging_commands runs on a container, the start-stop
command is present; when it was absent it is now present and enabled. -/
theorem ensureChargingCore_post (copt : Option Commands) :
    (ensureChargingCore copt).contains_command "start-stop" = true ∧
    (lookupCmd (copt.getD Commands.new).commands "start-stop" = none →
      lookupCmd (ensureChargingCore copt).commands "start-stop" = some true) := by
  unfold ensureChargingCore ensureChargingStep
  rcases hl : lookupCmd (copt.getD Commands.new).commands "start-stop" with _ | en
  · have hcont : (copt.getD Commands.new).contains_command "start-stop" = false := by
      simp [Commands.contains_command, hl]
    have hfound := lookupCmd_append_self (copt.getD Commands.new).commands "start-stop" true hl
    simp only [hcont, Bool.false_eq_true, not_false_iff, if_true]
    constructor
    · simp [Commands.contains_command, addCmd, hl, hfound]
    · intro _; simpa [addCmd, hl] using hfound
  · have hcont : (copt.getD Commands.new).contains_command "start-stop" = true := by
      simp [Commands.contains_command, hl]
    simp only [hcont, not_true, if_false]
    exact ⟨by simp [hcont], fun hnone => by cases hnone⟩

/-- A container already containing a start-stop command is a fixed point of
_ensure_charging_commands. -/
theorem ensureChargingCore_fixed (c : Commands)
    (hcont : c.contains_command "start-stop" = true) :
    ensureChargingCore (some c) = c := by
  unfold ensureChargingCore ensureChargingStep
  simp [hcont]

/-- The dict produced by either command step is duplicate-free when the
input dict is. -/
theorem step_commands_nodup (c : Commands)
    (hnodup : (c.commands.map Prod.fst).Nodup) :
    ((ensureBaseStep c).commands.map Prod.fst).Nodup ∧
    ((ensureChargingStep c).commands.map Prod.fst).Nodup := by
  have hadd : ((addCmd c.commands "start-stop" true).map Prod.fst).Nodup := by
    unfold addCmd
    rcases hfind : lookupCmd c.commands "start-stop" with _ | en
    · simp only [hfind, Option.isSome_none, Bool.false_eq_true, if_false]
      rw [List.map_append]
      refine List.Nodup.append hnodup (by simp) ?_
      intro x hx hy
      simp only [List.map_cons, List.map_nil, List.mem_singleton] at hy
      subst hy
      exact lookupCmd_none_not_mem c.commands "start-stop" hfind hx
    · simp only [hfind, Option.isSome_some, if_true]
      rw [setCmdEnabled_keys]
      exact hnodup
  constructor
  · unfold ensureBaseStep
    rcases hl : lookupCmd c.commands "start-stop" with _ | en
    · have hcont : c.contains_command "start-stop" = false := by
        simp [Commands.contains_command, hl]
      simp only [hcont, Bool.false_eq_true, not_false_iff, if_true]
      exact hadd
    · have hcont : c.contains_command "start-stop" = true := by
        simp [Commands.contains_command, hl]
      cases en with
      | false =>
        simp only [hcont, not_true, if_false, hl, Bool.false_eq_true, not_false_iff, if_true]
        rw [setCmdEnabled_keys]
        exact hnodup
      | true => simp only [hcont, not_true, if_false, hl, if_true]; simpa using hnodup
  · unfold ensureChargingStep
    by_cases hcont : c.contains_command "start-stop"
    · simpa [hcont] using hnodup
    · simp only [hcont, Bool.false_eq_true, not_false_iff, if_true]
      exact hadd

/-- Running either registration body keeps command names duplicate-free. -/
theorem ensureCore_nodup (copt : Option Commands)
    (h : ∀ c : Commands, copt = some c → c.nodupNames) :
    (ensureBaseCore copt).nodupNames ∧ (ensureChargingCore copt).nodupNames := by
  have hnodup : ((copt.getD Commands.new).commands.map Prod.fst).Nodup := by
    cases copt with
    | none => simp [Commands.new]
    | some c => exact h c rfl
  obtain ⟨hb, hc⟩ := step_commands_nodup (copt.getD Commands.new) hnodup
  constructor
  · unfold ensureBaseCore Commands.nodupNames
    rw [(ensureBaseFinish_spec _).2]
    exact hb
  · exact hc

/-- Running the base-commands body twice equals running it once. -/
theorem ensureBaseCore_idem (copt : Option Commands) :
    ensureBaseCore (some (ensureBaseCore copt)) = ensureBaseCore copt := by
  obtain ⟨hl, he⟩ := ensureBaseCore_post copt
  exact ensureBaseCore_fixed _ hl he

/-- Running the charging-commands body twice equals running it once. -/
theorem ensureChargingCore_idem (copt : Option Commands) :
    ensureChargingCore (some (ensureChargingCore copt)) = ensureChargingCore copt :=
  ensureChargingCore_fixed _ (ensureChargingCore_post copt).1

/-- C4 counterexample: on a container already holding a disabled start-stop
command in a disabled container, _ensure_charging_commands changes nothing:
the command stays disabled and the container stays disabled, contradicting
the claimed convergence of every registration procedure. -/
theorem C4_counterexample_charging_leaves_disabled :
    ensure_charging_commands (some (some disabledStartStop)) =
      some (some disabledStartStop) ∧
    lookupCmd disabledStartStop.commands "start-stop" = some false ∧
    disabledStartStop.enabled = false := by
  refine ⟨by decide, rfl, rfl⟩

/-- C4 amended: _ensure_base_commands establishes, from any starting state
of the command container, that the container exists, the start-stop command
exists and is enabled (a disabled one is flipped), and the container itself
is enabled; _ensure_charging_commands only establishes that the container
exists and a start-stop command exists, created enabled when it was absent —
it neither flips an existing disabled command nor enables the container. -/
theorem C4_amended_command_registration (copt : Option Commands) :
    lookupCmd (ensureBaseCore copt).commands "start-stop" = some true ∧
    (ensureBaseCore copt).enabled = true ∧
    ensure_base_commands (some copt) = some (some (ensureBaseCore copt)) ∧
    (ensureChargingCore copt).contains_command "start-stop" = true ∧
    ensure_charging_commands (some copt) = some (some (ensureChargingCore copt)) ∧
    (lookupCmd (copt.getD Commands.new).commands "start-stop" = none →
      lookupCmd (ensureChargingCore copt).commands "start-stop" = some true) := by
  obtain ⟨hl, he⟩ := ensureBaseCore_post copt
  obtain ⟨hc, habs⟩ := ensureChargingCore_post copt
  exact ⟨hl, he, rfl, hc, rfl, habs⟩

/-- Witness for C4 amended at an absent container: both procedures create
the container and the start-stop command arrives enabled. -/
theorem C4_amended_witness :
    lookupCmd (ensureBaseCore none).commands "start-stop" = some true ∧
    (ensureBaseCore none).enabled = true ∧
    lookupCmd (ensureChargingCore none).commands "start-stop" = some true := by
  have h := C4_amended_command_registration none
  exact ⟨h.1, h.2.1, h.2.2.2.2.2 rfl⟩

/-- C5: both command-registration procedures are idempotent — running one
twice in succession leaves the command container with exactly the contents
and enabled flags of one run — and both keep the container free of two
commands with the same name. -/
theorem C5_registration_idempotent (s : Option (Option Commands)) :
    ensure_base_commands (ensure_base_commands s) = ensure_base_commands s ∧
    ensure_charging_commands (ensure_charging_commands s) = ensure_charging_commands s ∧
    (∀ c : Commands, s = some (some c) → c.nodupNames →
      (ensureBaseCore (some c)).nodupNames ∧ (ensureChargingCore (some c)).nodupNames) := by
  cases s with
  | none => exact ⟨rfl, rfl, fun c h _ => by cases h⟩
  | some copt =>
    refine ⟨?_, ?_, ?_⟩
    · show some (some (ensureBaseCore (some (ensureBaseCore copt)))) =
        some (some (ensureBaseCore copt))
      rw [ensureBaseCore_idem]
    · show some (some (ensureChargingCore (some (ensureChargingCore copt)))) =
        some (some (ensureChargingCore copt))
      rw [ensureChargingCore_idem]
    · intro c h hnd
      cases h
      exact ensureCore_nodup (some c) (fun c2 hc2 => by cases hc2; exact hnd)

/-- Witness for C5 at a concrete nonempty container. -/
theorem C5_witness :
    ensure_base_commands (ensure_base_commands (some (some disabledStartStop))) =
      ensure_base_commands (some (some disabledStartStop)) ∧
    ensure_charging_commands (ensure_charging_commands (some (some disabledStartStop))) =
      ensure_charging_commands (some (some disabledStartStop)) ∧
    (ensureBaseCore (some disabledStartStop)).nodupNames ∧
    (ensureChargingCore (some disabledStartStop)).nodupNames := by
  have h := C5_registration_idempotent (some (some disabledStartStop))
  have hnd : disabledStartStop.nodupNames := by
    simp [Commands.nodupNames, disabledStartStop]
  obtain ⟨h1, h2⟩ := h.2.2 disabledStartStop rfl hnd
  exact ⟨h.1, h.2.1, h1, h2⟩

end SeatCupra
